import Mathlib

/-!
Shallow embedding of the Plutus FX dashboard core (`src/lib/fx.ts` parts of
`FxDashboard.tsx`, the time-series chart component, the `/api/fx/timeseries`
route and the dashboard refresh controller), together with theorems settling
the specification claims about it.

JavaScript `Date` instants are modelled as integer milliseconds since the Unix
epoch.  The ambient host timezone used by the local-time `Date` accessors
(`getDate`, `getMonth`, `setMonth`, ...) is modelled as a fixed UTC offset in
milliseconds, passed explicitly.  JavaScript numbers appearing in rate data are
modelled by `JsFloat` (a rational value, `NaN`, or a signed infinity); chart
geometry is modelled over exact rationals.
-/

namespace Plutus

/-! ## Proleptic Gregorian calendar (civil-from-days and days-from-civil)

These model the calendar arithmetic performed by the ECMAScript `Date`
specification (`MakeDay` / `YearFromTime` / `MonthFromTime` / `DateFromTime`).
`Int` division `/` is Euclidean division, which is floor division for the
positive divisors used here. -/

/-- Model of JS `String.prototype.toUpperCase()` for the ASCII tokens the
source handles (uppercases every character). -/
def jsToUpper (s : String) : String := ⟨s.data.map Char.toUpper⟩

/-- Model of JS `String.prototype.trim()`: strips leading and trailing
whitespace. -/
def jsTrim (s : String) : String :=
  ⟨((s.data.dropWhile Char.isWhitespace).reverse.dropWhile Char.isWhitespace).reverse⟩

/-- Days since 1970-01-01 of the civil date `(y, m, d)` (month `1..12`).
The formula is linear in the day field, so a `d` outside `1..daysInMonth`
denotes the day reached by counting from the 1st — exactly the overflow
normalization `MakeDay` performs for out-of-range day fields. -/
def daysFromCivil (y m d : Int) : Int :=
  let yAdj := if m ≤ 2 then y - 1 else y
  let mAdj := if m ≤ 2 then m + 9 else m - 3
  365 * yAdj + yAdj / 4 - yAdj / 100 + yAdj / 400 + (153 * mAdj + 2) / 5 + d - 1 - 719468

/-- Civil date `(y, m, d)` (month `1..12`) of the day `z` counted from
1970-01-01. -/
def civilFromDays (z : Int) : Int × Int × Int :=
  let z' := z + 719468
  let era := z' / 146097
  let doe := z' % 146097
  let yoe := (doe - doe / 1460 + doe / 36524 - doe / 146096) / 365
  let y := yoe + era * 400
  let doy := doe - (365 * yoe + yoe / 4 - yoe / 100)
  let mp := (5 * doy + 2) / 153
  let d := doy - (153 * mp + 2) / 5 + 1
  let m := if mp < 10 then mp + 3 else mp - 9
  (if m ≤ 2 then y + 1 else y, m, d)

/-- Milliseconds per day. -/
def msPerDay : Int := 86400000

/-- The fixed Asia/Singapore UTC offset (+08:00) in milliseconds.  Singapore
has no daylight saving time, so a fixed offset is exact. -/
def sgtOffset : Int := 8 * 3600000

/-- Day number (since epoch) of the instant `ms` in a host timezone of fixed
UTC offset `off` milliseconds. -/
def localDays (off ms : Int) : Int := (ms + off) / msPerDay

/-- Millisecond of day of the instant `ms` in a host timezone of offset
`off`. -/
def localTimeOfDay (off ms : Int) : Int := (ms + off) % msPerDay

/-- Local civil date of the instant `ms` under host offset `off`. -/
def localCivil (off ms : Int) : Int × Int × Int := civilFromDays (localDays off ms)

/-- JS `date.getFullYear()` under host offset `off`. -/
def getFullYear (off ms : Int) : Int := (localCivil off ms).1

/-- JS `date.getMonth()` (0-based) under host offset `off`. -/
def getMonth (off ms : Int) : Int := (localCivil off ms).2.1 - 1

/-- JS `date.getDate()` (day of month) under host offset `off`. -/
def getDate (off ms : Int) : Int := (localCivil off ms).2.2

/-- JS `date.setDate(dNew)` under host offset `off`: replaces the local
day-of-month field, normalizing out-of-range days by day counting, and
returns the new instant. -/
def setDate (off ms dNew : Int) : Int :=
  let c := localCivil off ms
  (daysFromCivil c.1 c.2.1 1 + (dNew - 1)) * msPerDay + localTimeOfDay off ms - off

/-- JS `date.setMonth(mNew)` under host offset `off`: replaces the local
0-based month field (normalizing it into the year), keeps the day-of-month
field (a day not present in the target month overflows into the following
month), and returns the new instant. -/
def setMonth (off ms mNew : Int) : Int :=
  let c := localCivil off ms
  let yAdj := c.1 + mNew / 12
  let mAdj := mNew % 12
  (daysFromCivil yAdj (mAdj + 1) 1 + (c.2.2 - 1)) * msPerDay + localTimeOfDay off ms - off

/-- JS `date.setFullYear(yNew)` under host offset `off`: replaces the local
year field keeping month and day (Feb 29 in a non-leap target year overflows
to Mar 1), and returns the new instant. -/
def setFullYear (off ms yNew : Int) : Int :=
  let c := localCivil off ms
  (daysFromCivil yNew c.2.1 1 + (c.2.2 - 1)) * msPerDay + localTimeOfDay off ms - off

/-- Zero-pads a (nonnegative) numeric calendar field to two digits, as the
`2-digit` option of `Intl.DateTimeFormat` does. -/
def pad2 (n : Int) : String :=
  if n < 10 then "0" ++ toString n else toString n

/-- Formats a civil triple as `YYYY-MM-DD`. -/
def isoOfCivil (c : Int × Int × Int) : String :=
  toString c.1 ++ "-" ++ pad2 c.2.1 ++ "-" ++ pad2 c.2.2

/-- Embedding of `toISODateSGT` (`src` fx library): formats an instant as
`YYYY-MM-DD` in the fixed Asia/Singapore timezone via
`Intl.DateTimeFormat("en-CA", { timeZone: "Asia/Singapore", ... })`. -/
def toISODateSGT (ms : Int) : String :=
  isoOfCivil (civilFromDays ((ms + sgtOffset) / msPerDay))

/-- Result shape of `computeRangeDates` (`{ from, to }` in the source;
`from` is a Lean keyword, hence `fromDate`/`toDate`). -/
structure RangeDates where
  fromDate : String
  toDate : String
deriving DecidableEq, Repr

/-- The branch of `computeRangeDates` that moves the working date `d` back in
time according to the (already uppercased) range token, under host offset
`off`.  Mirrors the `if`/`else if` chain of the source, whose final `else`
falls back to the 1M behaviour. -/
def rangeShift (off : Int) (normalized : String) (ms : Int) : Int :=
  if normalized = "1D" then setDate off ms (getDate off ms - 1)
  else if normalized = "1W" then setDate off ms (getDate off ms - 7)
  else if normalized = "1M" then setMonth off ms (getMonth off ms - 1)
  else if normalized = "3M" then setMonth off ms (getMonth off ms - 3)
  else if normalized = "6M" then setMonth off ms (getMonth off ms - 6)
  else if normalized = "1Y" then setFullYear off ms (getFullYear off ms - 1)
  else setMonth off ms (getMonth off ms - 1)

/-- Embedding of `computeRangeDates(range, now)` (`src` fx library).  `off` is
the host-local UTC offset used implicitly by the JS `Date` accessors the
source calls on `d`; `toISODateSGT` always uses the fixed Singapore offset. -/
def computeRangeDates (off : Int) (range : String) (nowMs : Int) : RangeDates :=
  { fromDate := toISODateSGT (rangeShift off (jsToUpper range) nowMs)
  , toDate := toISODateSGT nowMs }

/-- Builds the instant whose Singapore civil time is `(y, m, d, hh:mins)`;
used only to name concrete test instants. -/
def msOfSGT (y m d hh mins : Int) : Int :=
  daysFromCivil y m d * msPerDay + hh * 3600000 + mins * 60000 - sgtOffset

/-! ## The `/api/fx/timeseries` route's range validation -/

/-- The `allowedRanges` list of the timeseries route handler. -/
def allowedRanges : List String := ["1D", "1W", "1M", "3M", "6M", "1Y"]

/-- JS truthiness of a nullable string (`null` and `""` are falsy). -/
def isTruthy : Option String → Bool
  | some s => s ≠ ""
  | none => false

/-- Embedding of the range validation of `GET /api/fx/timeseries`
(`src/app/api/fx/timeseries/route.ts` lines 19–48): `q` is
`searchParams.get("range")` (`none` when the parameter is absent).
`rangeParam = (q || "1M").trim().toUpperCase()`; an allowed token is accepted,
an unrecognized one defaults to `"1M"` but, when the parameter was truthy
(present and non-empty), the handler returns a 400 `"Invalid range"` response
instead. -/
def timeseriesRangeCheck (q : Option String) : Except String String :=
  let raw := match q with
    | none => "1M"
    | some s => if s = "" then "1M" else s
  let rangeParam := jsToUpper (jsTrim raw)
  let range := if allowedRanges.contains rangeParam then rangeParam else "1M"
  if isTruthy q && rangeParam ≠ range then Except.error "Invalid range"
  else Except.ok range

/-! ## Rate data normalization (`fetchLatestRates` / `fetchTimeSeries`) -/

/-- A JavaScript number: a finite rational, `NaN`, or a signed infinity. -/
inductive JsFloat where
  | nan
  | inf
  | negInf
  | val (q : ℚ)
deriving DecidableEq, Repr

/-- JS `Number.isFinite`. -/
def jsIsFinite : JsFloat → Bool
  | .val _ => true
  | _ => false

/-- JS `x > 0` (false for `NaN`). -/
def jsGtZero : JsFloat → Bool
  | .val q => decide (0 < q)
  | .inf => true
  | _ => false

/-- The coercion `typeof raw === "number" ? raw : Number(raw)` applied to the
looked-up rate value; a missing property (`undefined`) coerces to `NaN`. -/
def coerceNum : Option JsFloat → JsFloat
  | some x => x
  | none => .nan

/-- A normalized series point `{ t, v }`. -/
structure TimeSeriesPoint where
  t : String
  v : JsFloat
deriving DecidableEq, Repr

/-- The point pipeline of `fetchTimeSeries`: map each raw per-date entry to a
point for the requested symbol, coercing the value; filter out points whose
value is not finite or not `> 0`; sort ascending by date string (the source's
stable three-way comparator on `t`). -/
def seriesPoints (symbol : String)
    (rawRates : List (String × List (String × JsFloat))) : List TimeSeriesPoint :=
  ((rawRates.map (fun e => { t := e.1, v := coerceNum (e.2.lookup (jsToUpper symbol)) })).filter
    (fun p => jsIsFinite p.v && jsGtZero p.v)).mergeSort (fun a b => a.t ≤ b.t)

/-- The raw Frankfurter time-series response shape. -/
structure FrankfurterSeries where
  base : String
  start_date : String
  end_date : String
  rates : List (String × List (String × JsFloat))

/-- The normalized `TimeSeries` shape. -/
structure TimeSeries where
  base : String
  symbol : String
  asOf : String
  range : Option String
  fromDate : String
  toDate : String
  points : List TimeSeriesPoint

/-- Embedding of `fetchTimeSeries` after the provider response arrived:
`nowIso` is the value of `new Date().toISOString()` at normalization time. -/
def fetchTimeSeries (base symbol fromD toD : String) (range : Option String)
    (nowIso : String) (data : FrankfurterSeries) : TimeSeries :=
  { base := jsToUpper (if data.base = "" then base else data.base)
  , symbol := jsToUpper symbol
  , asOf := nowIso
  , range := range
  , fromDate := fromD
  , toDate := toD
  , points := seriesPoints symbol data.rates }

/-- The raw Frankfurter latest-rates response shape. -/
structure FrankfurterLatest where
  base : String
  date : String
  rates : List (String × JsFloat)
deriving DecidableEq, Repr

/-- The normalized `LatestRates` snapshot shape. -/
structure LatestRates where
  base : String
  asOf : String
  providerDate : String
  symbols : List String
  rates : List (String × JsFloat)
deriving DecidableEq, Repr

/-- Embedding of `fetchLatestRates` after the provider response arrived:
`nowIso` is the value of `new Date().toISOString()` at normalization time.
`symbols` is rebuilt from the request parameters (trimmed, uppercased, empty
entries dropped by `filter(Boolean)`), and `rates` re-keys the provider map
with uppercased keys. -/
def fetchLatestRates (base : String) (symbols : List String)
    (nowIso : String) (data : FrankfurterLatest) : LatestRates :=
  { base := jsToUpper (if data.base = "" then base else data.base)
  , asOf := nowIso
  , providerDate := data.date
  , symbols := (symbols.map (fun s => jsToUpper (jsTrim s))).filter (fun s => s ≠ "")
  , rates := data.rates.map (fun kv => (jsToUpper kv.1, kv.2)) }

/-! ## Chart geometry (`TimeSeriesChart`: `xFor`, `xToT`, `hoverFromEvent`)

JS number arithmetic is modelled over exact rationals (`ℚ`); in ℚ a division
by zero yields `0`, which only arises in branches the source guards. -/

/-- The chart's fixed plot padding (`const pad = 24`). -/
def pad : ℚ := 24

/-- The inner plot width (`const innerW = width - pad * 2`). -/
def innerW (width : ℚ) : ℚ := width - pad * 2

/-- Embedding of `xFor`: maps point index `i` of `n` total points to an
x-coordinate, `pad + (i / Math.max(points.length - 1, 1)) * innerW`. -/
def xFor (n : ℕ) (width : ℚ) (i : ℚ) : ℚ :=
  pad + (i / max ((n : ℚ) - 1) 1) * innerW width

/-- Embedding of `xToT`: inverse of the horizontal mapping, guarded against a
degenerate interval. -/
def xToT (left right x : ℚ) : ℚ :=
  if right ≤ left then 0 else (x - left) / (right - left)

/-- JS `Math.round`: round half toward positive infinity. -/
def jsRound (q : ℚ) : Int := ⌊q + 1 / 2⌋

/-- The chart's hover state (`HoverState` in the source). -/
structure HoverState where
  idx : Int
  vx : ℚ
  vy : ℚ
  px : ℚ
  py : ℚ
deriving DecidableEq, Repr

/-- Embedding of `hoverFromEvent`: from the cursor's client coordinates and
the SVG's bounding rectangle, compute plot-relative pixels, unclamped viewBox
coordinates, and the nearest point index (clamped x inverted through the
horizontal mapping, rounded, then clamped to `[0, n-1]`).  Returns `none`
when the point sequence is empty (the source also returns `null` when the
SVG ref is unset, a purely host-side condition). -/
def hoverFromEvent (n : ℕ) (width height : ℚ) (rectLeft rectTop rectW rectH : ℚ)
    (clientX clientY : ℚ) : Option HoverState :=
  if n = 0 then none
  else
    let px := clientX - rectLeft
    let py := clientY - rectTop
    let vx := px / rectW * width
    let vy := py / rectH * height
    let left := pad
    let right := pad + innerW width
    let clampedX := min (max vx left) right
    let t := xToT left right clampedX
    let idx := jsRound (t * ((n : ℚ) - 1))
    let clampedIdx := min (max idx 0) ((n : Int) - 1)
    some { idx := clampedIdx, vx := vx, vy := vy, px := px, py := py }

/-! ## Refresh controller (`FxDashboard`: `loadLatest`, `status`, state badge) -/

/-- The dashboard state touched by `loadLatest`: the `latest` snapshot, the
`isLoading` flag and the `errorMessage`. -/
structure DashState where
  latest : Option LatestRates
  isLoading : Bool
  errorMessage : Option String
deriving DecidableEq, Repr

/-- How one `loadLatest` invocation's fetch resolves: a parsed snapshot, a
thrown error with its message, or an `AbortError` raised because the request
was cancelled by a superseding fetch. -/
inductive FetchOutcome where
  | success (data : LatestRates)
  | failure (msg : String)
  | aborted
deriving DecidableEq, Repr

/-- The synchronous prefix of `loadLatest` once a fetch starts:
`setIsLoading(true); setErrorMessage(null)`. -/
def loadLatestStart (s : DashState) : DashState :=
  { s with isLoading := true, errorMessage := none }

/-- The continuation of `loadLatest` when its fetch resolves with outcome
`o`: on success `setLatest(data)`; on failure `setErrorMessage(message)`
(the last good `latest` is kept); on `AbortError` the catch clause returns
early; in every case the `finally` block runs `setIsLoading(false)`. -/
def loadLatestFinish (s : DashState) (o : FetchOutcome) : DashState :=
  match o with
  | .success data => { s with latest := some data, isLoading := false }
  | .failure msg => { s with errorMessage := some msg, isLoading := false }
  | .aborted => { s with isLoading := false }

/-- A whole uninterleaved `loadLatest` run: a no-op when `symbolsParam` is
empty (`if (!symbolsParam) return`), otherwise the start phase followed by
the completion for outcome `o`. -/
def loadLatest (symbolsParam : String) (s : DashState) (o : FetchOutcome) : DashState :=
  if symbolsParam = "" then s else loadLatestFinish (loadLatestStart s) o

/-- The derived `status` value (`FxDashboard.tsx` lines 129–133):
`isLoading && !latest ? "loading" : errorMessage && !latest ? "error" :
latest ? "loaded" : "idle"`. -/
def status (s : DashState) : String :=
  if s.isLoading && s.latest.isNone then "loading"
  else if isTruthy s.errorMessage && s.latest.isNone then "error"
  else if s.latest.isSome then "loaded"
  else "idle"

/-- The rendered synchronization badge (`FxDashboard.tsx` line 153):
`errorMessage ? "DEGRADED" : isLoading ? "SYNCING" : "LIVE"`. -/
def statusBadge (s : DashState) : String :=
  if isTruthy s.errorMessage then "DEGRADED"
  else if s.isLoading then "SYNCING"
  else "LIVE"

/-- Modelled from the spec: the horizontal mapping formula
`x = padding + (i / max(n-1, 1)) * innerWidth` for the point at ordinal
index `i` of `n` total points. -/
def xForSpec (n : ℕ) (padding innerWidth : ℚ) (i : ℚ) : ℚ :=
  padding + (i / max ((n : ℚ) - 1) 1) * innerWidth

/-- A concrete successful snapshot, used as the prior good snapshot in
witness statements. -/
def snap0 : LatestRates :=
  { base := "SGD"
  , asOf := "2024-03-15T04:00:00.000Z"
  , providerDate := "2024-03-15"
  , symbols := ["USD"]
  , rates := [("USD", .val (74 / 100))] }

/-! ## Claim theorems -/

/-- C1: when a fetch fails while a prior successful snapshot exists, the last
good snapshot is retained unchanged, the exposed synchronization state is
`DEGRADED` after the failure, and the stored error message updates to the
latest failure reason; composing two failed refreshes in a row preserves all
of this, with the message updating each time.  (Failure messages are
non-empty, as every message the source constructs is.) -/
theorem refresh_failure_retains_snapshot (sym : String) (s : DashState)
    (snap : LatestRates) (m₁ m₂ : String) (hsym : sym ≠ "")
    (hsnap : s.latest = some snap) (hm₁ : m₁ ≠ "") (hm₂ : m₂ ≠ "") :
    (loadLatest sym s (.failure m₁)).latest = some snap ∧
    (loadLatest sym s (.failure m₁)).errorMessage = some m₁ ∧
    statusBadge (loadLatest sym s (.failure m₁)) = "DEGRADED" ∧
    (loadLatest sym (loadLatest sym s (.failure m₁)) (.failure m₂)).latest = some snap ∧
    (loadLatest sym (loadLatest sym s (.failure m₁)) (.failure m₂)).errorMessage = some m₂ ∧
    statusBadge (loadLatest sym (loadLatest sym s (.failure m₁)) (.failure m₂)) = "DEGRADED" := by
  simp [loadLatest, loadLatestStart, loadLatestFinish, statusBadge, isTruthy, hsym, hsnap,
    hm₁, hm₂]

/-- Witness for C1 at a concrete prior-snapshot state and two concrete
failure reasons. -/
theorem refresh_failure_retains_snapshot_witness :
    (loadLatest "USD" ⟨some snap0, false, none⟩ (.failure "HTTP 500")).latest = some snap0 ∧
    (loadLatest "USD" ⟨some snap0, false, none⟩ (.failure "HTTP 500")).errorMessage
      = some "HTTP 500" ∧
    statusBadge (loadLatest "USD" ⟨some snap0, false, none⟩ (.failure "HTTP 500"))
      = "DEGRADED" ∧
    (loadLatest "USD" (loadLatest "USD" ⟨some snap0, false, none⟩ (.failure "HTTP 500"))
        (.failure "HTTP 502")).latest = some snap0 ∧
    (loadLatest "USD" (loadLatest "USD" ⟨some snap0, false, none⟩ (.failure "HTTP 500"))
        (.failure "HTTP 502")).errorMessage = some "HTTP 502" ∧
    statusBadge (loadLatest "USD" (loadLatest "USD" ⟨some snap0, false, none⟩
        (.failure "HTTP 500")) (.failure "HTTP 502")) = "DEGRADED" :=
  refresh_failure_retains_snapshot "USD" ⟨some snap0, false, none⟩ snap0
    "HTTP 500" "HTTP 502" (by decide) rfl (by decide) (by decide)

/-- C2 counterexample: the completion of a fetch cancelled via its
cancellation token does not leave the loading flag unchanged — the `finally`
block still runs `setIsLoading(false)` — and this can change the derived
state-machine status (here from `"loading"` to `"idle"`). -/
theorem aborted_completion_resets_loading_flag :
    (loadLatestFinish ⟨none, true, none⟩ .aborted).isLoading = false ∧
    (⟨none, true, none⟩ : DashState).isLoading = true ∧
    status (loadLatestFinish ⟨none, true, none⟩ .aborted) = "idle" ∧
    status ⟨none, true, none⟩ = "loading" ∧
    loadLatestFinish ⟨none, true, none⟩ .aborted ≠ ⟨none, true, none⟩ := by decide

/-- C2 amended: a cancelled fetch's completion leaves the snapshot and the
error message unchanged and surfaces nothing through the ordinary error
channel; the only state it touches is the loading flag, which its `finally`
block resets to `false`. -/
theorem aborted_completion_frame (s : DashState) :
    loadLatestFinish s .aborted = ⟨s.latest, false, s.errorMessage⟩ := rfl

/-- C9: in every normalized series, `asOf` equals the normalization instant
(the stamped clock value), whatever the provider reported, while the series
`from`/`to` fields and a snapshot's `providerDate` carry provider/request
dates. -/
theorem asOf_stamped_at_observation (base symbol fromD toD : String)
    (range : Option String) (nowIso : String) (ds : FrankfurterSeries)
    (dl : FrankfurterLatest) (symbols : List String) :
    (fetchTimeSeries base symbol fromD toD range nowIso ds).asOf = nowIso ∧
    (fetchTimeSeries base symbol fromD toD range nowIso ds).fromDate = fromD ∧
    (fetchTimeSeries base symbol fromD toD range nowIso ds).toDate = toD ∧
    (fetchLatestRates base symbols nowIso dl).asOf = nowIso ∧
    (fetchLatestRates base symbols nowIso dl).providerDate = dl.date :=
  ⟨rfl, rfl, rfl, rfl, rfl⟩

/-- C10: the `symbols` field of a snapshot is exactly the caller-requested
list, trimmed, uppercased, with empty entries removed and order preserved; it
does not depend on the provider response, so a requested symbol can appear in
`symbols` with no corresponding key in `rates`. -/
theorem fetchLatestRates_symbols_from_request (base nowIso : String)
    (symbols : List String) (data data' : FrankfurterLatest) :
    (fetchLatestRates base symbols nowIso data).symbols
      = (symbols.map (fun s => jsToUpper (jsTrim s))).filter (fun s => s ≠ "") ∧
    (fetchLatestRates base symbols nowIso data).symbols
      = (fetchLatestRates base symbols nowIso data').symbols ∧
    "USD" ∈ (fetchLatestRates "SGD" ["USD"] snap0.asOf ⟨"SGD", "2024-03-15", []⟩).symbols ∧
    (fetchLatestRates "SGD" ["USD"] snap0.asOf ⟨"SGD", "2024-03-15", []⟩).rates.lookup "USD"
      = none := by
  refine ⟨rfl, rfl, ?_, rfl⟩
  decide

/-- C7: the horizontal mapping agrees with the spec formula
`x = padding + (i / max(n-1, 1)) * innerWidth` at padding 24; the divisor is
at least 1 (no division by zero), a single point maps to the left padding
edge, and with viewport width 640 and 5 points, index 4 maps to 616. -/
theorem xFor_horizontal_mapping (n : ℕ) (width i : ℚ) :
    xFor n width i = xForSpec n pad (innerW width) i ∧
    (1 : ℚ) ≤ max ((n : ℚ) - 1) 1 ∧
    xFor 1 width 0 = pad ∧
    xFor 5 640 4 = 616 := by
  refine ⟨rfl, le_max_right _ _, by simp [xFor], ?_⟩
  norm_num [xFor, innerW, pad, max_def]

/-- C8: for every point sequence with `n ≥ 1` and every cursor position,
hover resolution resolves to a point index within `[0, n-1]`, and repeating
the identical cursor input resolves to the same hover state. -/
theorem hoverFromEvent_in_range (n : ℕ)
    (width height rectLeft rectTop rectW rectH clientX clientY : ℚ) (hn : 1 ≤ n) :
    ∃ h : HoverState,
      hoverFromEvent n width height rectLeft rectTop rectW rectH clientX clientY = some h ∧
      0 ≤ h.idx ∧ h.idx ≤ (n : Int) - 1 ∧
      ∀ h' : HoverState,
        hoverFromEvent n width height rectLeft rectTop rectW rectH clientX clientY = some h' →
          h' = h := by
  have hne : ¬ n = 0 := by omega
  have hn' : (1 : Int) ≤ (n : Int) := by exact_mod_cast hn
  simp only [hoverFromEvent, if_neg hne]
  refine ⟨_, rfl, ?_, ?_, ?_⟩
  · exact le_min (le_max_right _ _) (by omega)
  · exact min_le_right _ _
  · intro h' e
    exact (Option.some.injEq _ _ ▸ e).symm

/-- Witness for C8 at a 5-point sequence in a 640×220 viewport. -/
theorem hoverFromEvent_in_range_witness :
    ∃ h : HoverState,
      hoverFromEvent 5 640 220 0 0 640 220 616 100 = some h ∧
      0 ≤ h.idx ∧ h.idx ≤ (5 : Int) - 1 ∧
      ∀ h' : HoverState,
        hoverFromEvent 5 640 220 0 0 640 220 616 100 = some h' → h' = h :=
  hoverFromEvent_in_range 5 640 220 0 0 640 220 616 100 (by decide)

/-- C4: every point surviving series normalization has a finite value
strictly greater than zero, and the raw series
`{"2024-01-01": {"JPY": 0}, "2024-01-02": {"JPY": 114.3}}` normalizes to
exactly the single point `{t: "2024-01-02", v: 114.3}`. -/
theorem seriesPoints_values_positive :
    (∀ (symbol : String) (raw : List (String × List (String × JsFloat)))
        (p : TimeSeriesPoint), p ∈ seriesPoints symbol raw →
        ∃ q : ℚ, p.v = .val q ∧ 0 < q) ∧
    seriesPoints "JPY"
        [("2024-01-01", [("JPY", .val 0)]), ("2024-01-02", [("JPY", .val (1143 / 10))])]
      = [{ t := "2024-01-02", v := .val (1143 / 10) }] := by
  constructor
  · intro symbol raw p hp
    simp only [seriesPoints, List.mem_mergeSort, List.mem_filter, Bool.and_eq_true] at hp
    obtain ⟨-, hfin, hpos⟩ := hp
    cases hv : p.v with
    | val q =>
      refine ⟨q, rfl, ?_⟩
      rw [hv] at hpos
      simpa [jsGtZero] using hpos
    | nan => rw [hv] at hfin; simp [jsIsFinite] at hfin
    | inf => rw [hv] at hfin; simp [jsIsFinite] at hfin
    | negInf => rw [hv] at hfin; simp [jsIsFinite] at hfin
  · have hJ : jsToUpper "JPY" = "JPY" := by decide
    simp only [seriesPoints, hJ]
    norm_num [List.lookup, coerceNum, jsIsFinite, jsGtZero, List.filter]

/-- Witness for C4: the surviving point of the scenario raw series is finite
and positive. -/
theorem seriesPoints_values_positive_witness :
    ∃ q : ℚ,
      ({ t := "2024-01-02", v := JsFloat.val (1143 / 10) } : TimeSeriesPoint).v
          = JsFloat.val q ∧ 0 < q :=
  seriesPoints_values_positive.1 "JPY"
    [("2024-01-01", [("JPY", .val 0)]), ("2024-01-02", [("JPY", .val (1143 / 10))])]
    { t := "2024-01-02", v := .val (1143 / 10) }
    (by rw [seriesPoints_values_positive.2]; exact List.mem_singleton.mpr rfl)

/-- C3 counterexample: subtracting one month from 2024-03-31 (noon Singapore
time, Singapore host timezone) does not land on the closest valid day of
February (2024-02-29); the nonexistent day Feb 31 overflows into the next
month, giving `from = "2024-03-02"`. -/
theorem computeRangeDates_overflow_cex :
    (computeRangeDates sgtOffset "1M" (msOfSGT 2024 3 31 12 0)).fromDate = "2024-03-02" ∧
    (computeRangeDates sgtOffset "1M" (msOfSGT 2024 3 31 12 0)).fromDate ≠ "2024-02-29" := by
  decide

/-- C3 amended: month subtraction keeps the day-of-month field; a day that
exists in the target month lands on that same day (for every day 1–29 of
March 2024, 1M yields the same day of February), the scenario
`resolve("1M", 2024-03-15)` yields `from = "2024-02-15"`, `to = "2024-03-15"`,
and a day that does not exist in the target month overflows into the
following month (March 30/31 map to March 1/2) instead of clamping. -/
theorem computeRangeDates_month_arithmetic :
    computeRangeDates sgtOffset "1M" (msOfSGT 2024 3 15 12 0)
      = { fromDate := "2024-02-15", toDate := "2024-03-15" } ∧
    ((List.range 29).all fun i =>
      (computeRangeDates sgtOffset "1M" (msOfSGT 2024 3 ((i : Int) + 1) 12 0)).fromDate
        == isoOfCivil (2024, 2, (i : Int) + 1)) = true ∧
    computeRangeDates sgtOffset "1M" (msOfSGT 2024 3 30 12 0)
      = { fromDate := "2024-03-01", toDate := "2024-03-30" } ∧
    computeRangeDates sgtOffset "1M" (msOfSGT 2024 3 31 12 0)
      = { fromDate := "2024-03-02", toDate := "2024-03-31" } := by
  decide

/-- C5 counterexample: for `now = 2024-03-01T00:30` Singapore time, a
Singapore-offset host and a UTC host produce different `from` dates for the
1M range, because the month subtraction is performed on host-local calendar
fields. -/
theorem computeRangeDates_tz_dependence_cex :
    (computeRangeDates sgtOffset "1M" (msOfSGT 2024 3 1 0 30)).fromDate = "2024-02-01" ∧
    (computeRangeDates 0 "1M" (msOfSGT 2024 3 1 0 30)).fromDate = "2024-01-30" ∧
    computeRangeDates sgtOffset "1M" (msOfSGT 2024 3 1 0 30)
      ≠ computeRangeDates 0 "1M" (msOfSGT 2024 3 1 0 30) := by
  decide

/-- C5 amended: the `to` date never depends on the ambient host timezone —
under any two host offsets it is the same string, namely the Asia/Singapore
calendar date of `now`. -/
theorem computeRangeDates_toDate_tz_independent (off₁ off₂ : Int) (range : String)
    (now : Int) :
    (computeRangeDates off₁ range now).toDate = (computeRangeDates off₂ range now).toDate ∧
    (computeRangeDates off₁ range now).toDate = toISODateSGT now :=
  ⟨rfl, rfl⟩

/-- C6 counterexample: `"3m"` is not a member of the recognized range-token
set, yet the resolver does not fall back to the 1M window for it — the token
is uppercased first, so it resolves to the 3M window. -/
theorem range_fallback_cex :
    ("3m" ∈ allowedRanges) = False ∧
    (computeRangeDates sgtOffset "3m" (msOfSGT 2024 3 15 12 0)).fromDate = "2023-12-15" ∧
    (computeRangeDates sgtOffset "1M" (msOfSGT 2024 3 15 12 0)).fromDate = "2024-02-15" ∧
    computeRangeDates sgtOffset "3m" (msOfSGT 2024 3 15 12 0)
      ≠ computeRangeDates sgtOffset "1M" (msOfSGT 2024 3 15 12 0) := by
  decide

/-- C6 amended: every range string whose uppercased form is outside the
recognized set resolves to the same window as `"1M"` (tokens are uppercased
before recognition), and the timeseries route rejects every explicitly
supplied non-empty range parameter whose trimmed uppercased form is outside
the set with an immediate `"Invalid range"` validation error. -/
theorem range_validation (off now : Int) (s r : String)
    (hs : jsToUpper s ∉ allowedRanges) (hr : r ≠ "")
    (hru : jsToUpper (jsTrim r) ∉ allowedRanges) :
    computeRangeDates off s now = computeRangeDates off "1M" now ∧
    timeseriesRangeCheck (some r) = Except.error "Invalid range" := by
  constructor
  · simp only [allowedRanges, List.mem_cons, List.not_mem_nil, or_false, not_or] at hs
    obtain ⟨h1, h2, h3, h4, h5, h6⟩ := hs
    have hM : jsToUpper "1M" = "1M" := by decide
    simp only [computeRangeDates, hM, rangeShift, if_neg h1, if_neg h2, if_neg h3,
      if_neg h4, if_neg h5, if_neg h6]
    rfl
  · have hne : jsToUpper (jsTrim r) ≠ "1M" := by
      intro h
      exact hru (h ▸ (by decide : ("1M" : String) ∈ allowedRanges))
    simp [timeseriesRangeCheck, if_neg hr, isTruthy, hr, hne, hru]

/-- Witness for C6 amended at the unrecognized token `"2W"`. -/
theorem range_validation_witness :
    computeRangeDates 0 "2W" 0 = computeRangeDates 0 "1M" 0 ∧
    timeseriesRangeCheck (some "2W") = Except.error "Invalid range" :=
  range_validation 0 0 "2W" "2W" (by decide) (by decide) (by decide)

end Plutus
